import Mathlib

/-!
Shallow embedding of the Context Lens mitmproxy addon (`mitm_addon.py`).

The addon's handler `response(flow)` is invoked once per completed HTTP
transaction.  It matches (host, path) against ordered capture patterns,
classifies the wire format from the path, redacts headers through fixed
per-direction allow-lists, detects event-stream responses, builds a
normalized capture record, and forwards it best-effort to an ingestion
endpoint.  Python strings, dicts and exceptions are modelled with
`String`, association lists and `Option`/`Except`.
-/

/-! ## String primitives modelling Python operations -/

/-- Membership of `needle` as a contiguous substring, modelling Python
`needle in haystack` on character lists. -/
def listInfix (needle : List Char) : List Char → Bool
  | [] => needle.isEmpty
  | c :: rest => needle.isPrefixOf (c :: rest) || listInfix needle rest

/-- Python `needle in haystack` for strings. -/
def strIn (needle haystack : String) : Bool :=
  listInfix needle.data haystack.data

/-- Python `s.startswith(pre)`. -/
def strStartsWith (s pre : String) : Bool :=
  pre.data.isPrefixOf s.data

/-- Python `s.lower()` (ASCII case folding, which covers all header names
the addon compares). -/
def pyLower (s : String) : String :=
  String.mk (s.data.map Char.toLower)

/-- Python `s.strip()`: drop leading and trailing whitespace. -/
def pyStrip (s : String) : String :=
  String.mk (((s.data.dropWhile Char.isWhitespace).reverse.dropWhile
    Char.isWhitespace).reverse)

/-- Python `host.split(".")[0] if "." in host else host`: the first
dot-delimited label of a host, or the whole host when it has no dot
(the first element of `split(".")` is exactly the prefix before the
first dot). -/
def hostFirstLabel (host : String) : String :=
  if strIn "." host then String.mk (host.data.takeWhile (fun c => c ≠ '.'))
  else host

/-! ## Untyped JSON values (results of `json.loads`) -/

/-- Schema-less JSON value, the result of parsing a request body. -/
inductive Json where
  | null : Json
  | bool (b : Bool) : Json
  | num (n : Int) : Json
  | str (s : String) : Json
  | arr (xs : List Json) : Json
  | obj (fields : List (String × Json)) : Json

/-! ## Capture patterns (module constants `CAPTURE_PATTERNS`,
`CATCHALL_PATH_PATTERNS`) -/

/-- `CAPTURE_PATTERNS`: (host substring, path substring, provider,
optional source), more specific patterns first. -/
def CAPTURE_PATTERNS : List (String × String × String × Option String) :=
  [("chatgpt.com", "/backend-api/codex/responses", "chatgpt", some "codex"),
   ("api.openai.com", "/v1/responses", "openai", none),
   ("api.openai.com", "/v1/chat/completions", "openai", none),
   ("api.anthropic.com", "/v1/messages", "anthropic", none),
   ("generativelanguage.googleapis.com", "/v1", "gemini", none)]

/-- `CATCHALL_PATH_PATTERNS`: (path substring, provider), matched on any
host. -/
def CATCHALL_PATH_PATTERNS : List (String × String) :=
  [("/v1/chat/completions", "openai"),
   ("/v1/messages", "anthropic"),
   ("/v1/responses", "openai")]

/-- The first `for` loop of `match_request`: scan the capture patterns in
order, returning the first whose host substring occurs in `host` and whose
path substring occurs in `path`. -/
def scanCapture (host path : String) :
    List (String × String × String × Option String) →
    Option (String × Option String)
  | [] => none
  | (hp, pp, prov, src) :: rest =>
    if strIn hp host && strIn pp path then some (prov, src)
    else scanCapture host path rest

/-- The second `for` loop of `match_request`: scan the catch-all patterns
by path substring only, deriving the source tag from the host. -/
def scanCatchall (host path : String) :
    List (String × String) → Option (String × Option String)
  | [] => none
  | (pp, prov) :: rest =>
    if strIn pp path then some (prov, some (hostFirstLabel host))
    else scanCatchall host path rest

/-- `match_request`: check whether a request matches a known LLM API
pattern; `none` models the Python return value `(None, None)`. -/
def match_request (host path : String) : Option (String × Option String) :=
  match scanCapture host path CAPTURE_PATTERNS with
  | some r => some r
  | none => scanCatchall host path CATCHALL_PATH_PATTERNS

/-- Written from the spec's words (§4.1): return the output of the FIRST
rule in the ordered list whose host-substring is contained in host and
whose path-substring is contained in path; if none matches, the first
catch-all rule whose path-substring is contained in path, with source
derived as the host's first dot-delimited label (or the whole host when
it contains no dot). -/
def matchRequestSpec (host path : String) : Option (String × Option String) :=
  match CAPTURE_PATTERNS.find? (fun r => strIn r.1 host && strIn r.2.1 path) with
  | some r => some (r.2.2.1, r.2.2.2)
  | none =>
    match CATCHALL_PATH_PATTERNS.find? (fun r => strIn r.1 path) with
    | some r => some (r.2, some (hostFirstLabel host))
    | none => none

/-! ## Format classifier (`_detect_api_format`) -/

/-- `_detect_api_format`: detect the API wire format from the request
path; the `/backend-api/` check is first, then `/responses`, then
`/chat/completions`, then `/v1/messages`. -/
def detect_api_format (path : String) : String :=
  if strIn "/backend-api/" path then "responses"
  else if strIn "/responses" path then "responses"
  else if strIn "/chat/completions" path then "chat-completions"
  else if strIn "/v1/messages" path then "anthropic-messages"
  else "unknown"

/-! ## Redactor (the `safe_request_headers` / `safe_response_headers`
loops) -/

/-- Header direction. -/
inductive Direction where
  | request : Direction
  | response : Direction

/-- Allow-listed lowercase request header names (the tuple in the
`safe_request_headers` loop). -/
def REQUEST_HEADER_ALLOWLIST : List String :=
  ["content-type", "content-encoding", "accept", "user-agent",
   "anthropic-version", "openai-beta", "x-request-id"]

/-- Allow-listed lowercase response header names (the tuple in the
`safe_response_headers` loop). -/
def RESPONSE_HEADER_ALLOWLIST : List String :=
  ["content-type", "x-request-id", "x-ratelimit-limit-requests",
   "x-ratelimit-remaining-requests", "x-ratelimit-limit-tokens",
   "x-ratelimit-remaining-tokens", "openai-processing-ms",
   "anthropic-ratelimit-requests-limit",
   "anthropic-ratelimit-requests-remaining"]

/-- The fixed allow-list for a direction. -/
def allowlist : Direction → List String
  | Direction.request => REQUEST_HEADER_ALLOWLIST
  | Direction.response => RESPONSE_HEADER_ALLOWLIST

/-- The redaction loops: keep exactly the header pairs whose lowercased
key is in the direction's allow-list (original key casing preserved in
the output, as in the Python dict assignment `safe[k] = v`). -/
def redactHeaders (d : Direction) (hs : List (String × String)) :
    List (String × String) :=
  hs.filter (fun kv => (allowlist d).contains (pyLower kv.1))

/-- mitmproxy `headers.get(key, "")` with case-insensitive header names:
first value whose lowercased name equals `key`, else `""`. -/
def headerGet (hs : List (String × String)) (key : String) : String :=
  match hs.find? (fun kv => pyLower kv.1 == key) with
  | some kv => kv.2
  | none => ""

/-! ## Capture timestamp (`time.strftime("%Y-%m-%dT%H:%M:%S.000Z",
time.gmtime())`) -/

/-- Broken-down UTC time, as produced by `time.gmtime`. -/
structure Tm where
  year : Nat
  mon : Nat
  mday : Nat
  hour : Nat
  min : Nat
  sec : Nat

/-- `time.gmtime(secs)` for nonnegative epoch seconds: civil date from
days since 1970-01-01 (proleptic Gregorian), plus time of day. -/
def gmtime (secs : Nat) : Tm :=
  let days := secs / 86400
  let z := days + 719468
  let era := z / 146097
  let doe := z % 146097
  let yoe := (doe - doe / 1460 + doe / 36524 - doe / 146096) / 365
  let doy := doe - (365 * yoe + yoe / 4 - yoe / 100)
  let mp := (5 * doy + 2) / 153
  let d := doy - (153 * mp + 2) / 5 + 1
  let m := if mp < 10 then mp + 3 else mp - 9
  let y := yoe + era * 400 + (if m ≤ 2 then 1 else 0)
  { year := y, mon := m, mday := d,
    hour := secs / 3600 % 24, min := secs / 60 % 60, sec := secs % 60 }

/-- Zero-padded two-digit decimal field (`%m`, `%d`, `%H`, `%M`, `%S`). -/
def pad2 (n : Nat) : String :=
  if n < 10 then "0" ++ toString n else toString n

/-- Zero-padded four-digit decimal field (`%Y`). -/
def pad4 (n : Nat) : String :=
  if n < 10 then "000" ++ toString n
  else if n < 100 then "00" ++ toString n
  else if n < 1000 then "0" ++ toString n
  else toString n

/-- `strftime` with the addon's fixed format string
`"%Y-%m-%dT%H:%M:%S.000Z"`: the sub-second part is the literal `.000`. -/
def strftimeCapture (t : Tm) : String :=
  (pad4 t.year ++ "-" ++ pad2 t.mon ++ "-" ++ pad2 t.mday ++ "T" ++
    pad2 t.hour ++ ":" ++ pad2 t.min ++ ":" ++ pad2 t.sec) ++ ".000Z"

/-- The `timestamp` field of a capture, as a function of the current
wall-clock time in milliseconds: `gmtime` only sees whole seconds. -/
def captureTimestamp (nowMs : Nat) : String :=
  strftimeCapture (gmtime (nowMs / 1000))

/-! ## Transaction, configuration, capture record -/

/-- One intercepted HTTP transaction, as exposed by mitmproxy's `flow`.
`requestBodyJson` models `json.loads(flow.request.get_text())`: `none`
when reading or parsing raises.  `responseText` models
`flow.response.get_text()`: `none` when it raises.  Timestamps are
seconds as rationals (`none` models Python `None`). -/
structure Transaction where
  method : String
  host : String
  path : String
  prettyUrl : String
  requestHeaders : List (String × String)
  requestBodyJson : Option Json
  requestRawLen : Nat
  requestTimestampStart : Option ℚ
  responseStatus : Nat
  responseHeaders : List (String × String)
  responseText : Option String
  responseRawLen : Nat
  responseTimestampEnd : Option ℚ

/-- Process-start configuration: `CONTEXT_LENS_INGEST_URL` and the
stripped `CONTEXT_LENS_SESSION_ID`. -/
structure Config where
  ingestUrl : String
  sessionId : String

/-- Line 30: `os.environ.get("CONTEXT_LENS_SESSION_ID", "").strip()`,
resolved once at process start from the environment value (if set). -/
def resolveSessionId (env : Option String) : String :=
  pyStrip (env.getD "")

/-- Python truthiness of `X or None` on a string: `none` when empty. -/
def pyOrNone (s : String) : Option String :=
  if s = "" then none else some s

/-- The `timings` sub-object of a capture. -/
structure Timings where
  send_ms : Int
  wait_ms : Int
  receive_ms : Int
  total_ms : Int

/-- Python `int(q)`: truncation toward zero (Lean `Int` division by a
positive denominator truncates toward zero). -/
def ratTrunc (q : ℚ) : Int :=
  q.num / (q.den : Int)

/-- Python truthiness of an optional float timestamp: falsy when `None`
or `0.0`. -/
def tsTruthy : Option ℚ → Bool
  | none => false
  | some q => if q = 0 then false else true

/-- `int((flow.response.timestamp_end - flow.request.timestamp_start) *
1000) if ... else 0`. -/
def computeTotalMs (flow : Transaction) : Int :=
  if tsTruthy flow.responseTimestampEnd && tsTruthy flow.requestTimestampStart
  then ratTrunc ((flow.responseTimestampEnd.getD 0 -
    flow.requestTimestampStart.getD 0) * 1000)
  else 0

/-- The normalized capture record (the `capture` dict of the handler). -/
structure CaptureRecord where
  timestamp : String
  method : String
  path : String
  source : Option String
  provider : String
  apiFormat : String
  targetUrl : String
  requestHeaders : List (String × String)
  requestBody : Json
  requestBytes : Nat
  responseStatus : Nat
  responseHeaders : List (String × String)
  responseBody : String
  responseIsStreaming : Bool
  responseBytes : Nat
  sessionId : Option String
  timings : Timings

/-- Diagnostic log lines written by the handler (the `print` calls),
abstracted from their exact f-string rendering. -/
inductive LogEvent where
  | parseFailure : LogEvent
  | readFailure : LogEvent
  | captured (source : Option String) (provider : String) (model : Json) : LogEvent
  | ingestFailed (msg : String) : LogEvent

/-- Lines 111-125: read the response body and detect streaming.  On a
read failure the body is `""`, streaming stays `false`, and one
diagnostic line is printed; otherwise streaming is set iff the
content-type contains `"text/event-stream"` or the body starts with
`"event:"`. -/
def readResponse (flow : Transaction) : String × Bool × List LogEvent :=
  match flow.responseText with
  | none => ("", false, [LogEvent.readFailure])
  | some text =>
    if strIn "text/event-stream" (headerGet flow.responseHeaders "content-type")
        || strStartsWith text "event:" then
      (text, true, [])
    else (text, false, [])

/-- Lines 149-173: assemble the capture record. -/
def buildCapture (cfg : Config) (nowMs : Nat) (flow : Transaction)
    (provider : String) (source : Option String) (body : Json)
    (respBody : String) (streaming : Bool) : CaptureRecord :=
  { timestamp := captureTimestamp nowMs
    method := "POST"
    path := flow.path
    source := source
    provider := provider
    apiFormat := detect_api_format flow.path
    targetUrl := flow.prettyUrl
    requestHeaders := redactHeaders Direction.request flow.requestHeaders
    requestBody := body
    requestBytes := flow.requestRawLen
    responseStatus := flow.responseStatus
    responseHeaders := redactHeaders Direction.response flow.responseHeaders
    responseBody := respBody
    responseIsStreaming := streaming
    responseBytes := flow.responseRawLen
    sessionId := pyOrNone cfg.sessionId
    timings := { send_ms := 0, wait_ms := 0, receive_ms := 0,
                 total_ms := computeTotalMs flow } }

/-! ## Serialization of the capture record (`json.dumps(capture)`) and a
parse back, at the level of JSON values -/

/-- Encode a header map as a JSON object of string fields. -/
def encodeHeaders (hs : List (String × String)) : Json :=
  Json.obj (hs.map (fun kv => (kv.1, Json.str kv.2)))

/-- Encode an optional string: Python `None` serializes as JSON null. -/
def encodeOptStr : Option String → Json
  | none => Json.null
  | some s => Json.str s

/-- Encode the `timings` sub-object. -/
def encodeTimings (t : Timings) : Json :=
  Json.obj [("send_ms", Json.num t.send_ms), ("wait_ms", Json.num t.wait_ms),
            ("receive_ms", Json.num t.receive_ms),
            ("total_ms", Json.num t.total_ms)]

/-- `json.dumps(capture)`, at the level of the JSON value that is
serialized: the field layout of the `capture` dict literal. -/
def encodeCapture (r : CaptureRecord) : Json :=
  Json.obj [("timestamp", Json.str r.timestamp),
            ("method", Json.str r.method),
            ("path", Json.str r.path),
            ("source", encodeOptStr r.source),
            ("provider", Json.str r.provider),
            ("apiFormat", Json.str r.apiFormat),
            ("targetUrl", Json.str r.targetUrl),
            ("requestHeaders", encodeHeaders r.requestHeaders),
            ("requestBody", r.requestBody),
            ("requestBytes", Json.num (Int.ofNat r.requestBytes)),
            ("responseStatus", Json.num (Int.ofNat r.responseStatus)),
            ("responseHeaders", encodeHeaders r.responseHeaders),
            ("responseBody", Json.str r.responseBody),
            ("responseIsStreaming", Json.bool r.responseIsStreaming),
            ("responseBytes", Json.num (Int.ofNat r.responseBytes)),
            ("sessionId", encodeOptStr r.sessionId),
            ("timings", encodeTimings r.timings)]

/-- Look up a field of a JSON object. -/
def jGetF : List (String × Json) → String → Option Json
  | [], _ => none
  | (k, v) :: rest, key => if k = key then some v else jGetF rest key

/-- Field access on a JSON value. -/
def jGet : Json → String → Option Json
  | Json.obj fs, key => jGetF fs key
  | _, _ => none

/-- Expect a JSON string. -/
def jStr : Json → Option String
  | Json.str s => some s
  | _ => none

/-- Expect a JSON integer. -/
def jInt : Json → Option Int
  | Json.num n => some n
  | _ => none

/-- Expect a nonnegative JSON integer. -/
def jNat (j : Json) : Option Nat :=
  match jInt j with
  | some (Int.ofNat n) => some n
  | _ => none

/-- Expect a JSON boolean. -/
def jBool : Json → Option Bool
  | Json.bool b => some b
  | _ => none

/-- Expect a JSON string or null (a nullable string field). -/
def jOptStr : Json → Option (Option String)
  | Json.null => some none
  | Json.str s => some (some s)
  | _ => none

/-- Decode the fields of a header object, all of which must be strings. -/
def decodeHeaderFields : List (String × Json) → Option (List (String × String))
  | [] => some []
  | (k, Json.str v) :: rest =>
    (decodeHeaderFields rest).map (fun r => (k, v) :: r)
  | _ => none

/-- Decode a header map. -/
def decodeHeaders : Json → Option (List (String × String))
  | Json.obj fs => decodeHeaderFields fs
  | _ => none

/-- Decode the `timings` sub-object. -/
def decodeTimings (j : Json) : Option Timings := do
  let s ← (jGet j "send_ms").bind jInt
  let w ← (jGet j "wait_ms").bind jInt
  let rc ← (jGet j "receive_ms").bind jInt
  let t ← (jGet j "total_ms").bind jInt
  some { send_ms := s, wait_ms := w, receive_ms := rc, total_ms := t }

/-- Decoded identification fields of a capture record. -/
structure DecodedMeta where
  timestamp : String
  method : String
  path : String
  source : Option String
  provider : String
  apiFormat : String
  targetUrl : String

/-- Decode the identification fields. -/
def decodeMeta (j : Json) : Option DecodedMeta := do
  let ts ← (jGet j "timestamp").bind jStr
  let m ← (jGet j "method").bind jStr
  let p ← (jGet j "path").bind jStr
  let src ← (jGet j "source").bind jOptStr
  let prov ← (jGet j "provider").bind jStr
  let af ← (jGet j "apiFormat").bind jStr
  let tu ← (jGet j "targetUrl").bind jStr
  some { timestamp := ts, method := m, path := p, source := src,
         provider := prov, apiFormat := af, targetUrl := tu }

/-- Decoded request-side fields of a capture record. -/
structure DecodedReq where
  requestHeaders : List (String × String)
  requestBody : Json
  requestBytes : Nat
  responseStatus : Nat
  responseHeaders : List (String × String)

/-- Decode the request-side fields and the response status/headers. -/
def decodeReq (j : Json) : Option DecodedReq := do
  let reqH ← (jGet j "requestHeaders").bind decodeHeaders
  let reqB ← jGet j "requestBody"
  let reqBy ← (jGet j "requestBytes").bind jNat
  let rs ← (jGet j "responseStatus").bind jNat
  let respH ← (jGet j "responseHeaders").bind decodeHeaders
  some { requestHeaders := reqH, requestBody := reqB, requestBytes := reqBy,
         responseStatus := rs, responseHeaders := respH }

/-- Decoded response-side fields of a capture record. -/
structure DecodedResp where
  responseBody : String
  responseIsStreaming : Bool
  responseBytes : Nat
  sessionId : Option String
  timings : Timings

/-- Decode the response-side fields, session id and timings. -/
def decodeResp (j : Json) : Option DecodedResp := do
  let respB ← (jGet j "responseBody").bind jStr
  let ris ← (jGet j "responseIsStreaming").bind jBool
  let respBy ← (jGet j "responseBytes").bind jNat
  let sid ← (jGet j "sessionId").bind jOptStr
  let tg ← (jGet j "timings").bind decodeTimings
  some { responseBody := respB, responseIsStreaming := ris,
         responseBytes := respBy, sessionId := sid, timings := tg }

/-- Parse a serialized capture record back from its JSON value. -/
def decodeCapture (j : Json) : Option CaptureRecord := do
  let a ← decodeMeta j
  let b ← decodeReq j
  let c ← decodeResp j
  some { timestamp := a.timestamp, method := a.method, path := a.path,
         source := a.source, provider := a.provider, apiFormat := a.apiFormat,
         targetUrl := a.targetUrl, requestHeaders := b.requestHeaders,
         requestBody := b.requestBody, requestBytes := b.requestBytes,
         responseStatus := b.responseStatus,
         responseHeaders := b.responseHeaders,
         responseBody := c.responseBody,
         responseIsStreaming := c.responseIsStreaming,
         responseBytes := c.responseBytes, sessionId := c.sessionId,
         timings := c.timings }

/-! ## Forwarder and handler (`response(flow)`) -/

/-- Outcome of the environment for the single `urllib.request.urlopen`
call: delivered with a 2xx status, or one of the failure modes
(connection error, timeout, HTTP error status raised by urllib). -/
inductive NetOutcome where
  | delivered : NetOutcome
  | connectionFailed (msg : String) : NetOutcome
  | timedOut : NetOutcome
  | httpError (status : Nat) : NetOutcome

/-- The forward call: raises (returns an error) on any failure mode. -/
def forwardStep : NetOutcome → Except String Unit
  | NetOutcome.delivered => Except.ok ()
  | NetOutcome.connectionFailed msg => Except.error msg
  | NetOutcome.timedOut => Except.error "timed out"
  | NetOutcome.httpError status => Except.error ("HTTP Error " ++ toString status)

/-- `request_body.get("model", "unknown")`: the field value (or the
default string) when the parsed body is a dict, an `AttributeError`
otherwise. -/
def pyGetModel : Json → Except String Json
  | Json.obj fs => Except.ok ((jGetF fs "model").getD (Json.str "unknown"))
  | _ => Except.error "AttributeError: get"

/-- Observable outcome of one handler invocation: diagnostic log lines,
attempted POSTs to the ingestion URL (with their payloads), and the
capture record that was built, if any. -/
structure HandlerResult where
  logs : List LogEvent
  ingestAttempts : List (String × Json)
  capture : Option CaptureRecord

/-- The addon entry point `response(flow)`.  `Except.error` would model
an exception escaping into the proxy runtime; every fallible step is
wrapped exactly as the Python `try`/`except` blocks wrap it. -/
def response (cfg : Config) (nowMs : Nat) (flow : Transaction)
    (net : NetOutcome) : Except String HandlerResult :=
  if flow.method ≠ "POST" then
    Except.ok { logs := [], ingestAttempts := [], capture := none }
  else
    match match_request flow.host flow.path with
    | none => Except.ok { logs := [], ingestAttempts := [], capture := none }
    | some (provider, source) =>
      match flow.requestBodyJson with
      | none =>
        Except.ok { logs := [LogEvent.parseFailure], ingestAttempts := [],
                    capture := none }
      | some body =>
        let rr := readResponse flow
        let cap := buildCapture cfg nowMs flow provider source body rr.1 rr.2.1
        let payload := encodeCapture cap
        match forwardStep net with
        | Except.error e =>
          Except.ok { logs := rr.2.2 ++ [LogEvent.ingestFailed e],
                      ingestAttempts := [(cfg.ingestUrl, payload)],
                      capture := some cap }
        | Except.ok _ =>
          match pyGetModel body with
          | Except.error e =>
            Except.ok { logs := rr.2.2 ++ [LogEvent.ingestFailed e],
                        ingestAttempts := [(cfg.ingestUrl, payload)],
                        capture := some cap }
          | Except.ok model =>
            Except.ok { logs := rr.2.2 ++ [LogEvent.captured source provider model],
                        ingestAttempts := [(cfg.ingestUrl, payload)],
                        capture := some cap }

/-! ## Sample transactions used as concrete witnesses -/

/-- A non-POST transaction. -/
def sampleGetFlow : Transaction :=
  { method := "GET", host := "api.openai.com", path := "/v1/models",
    prettyUrl := "https://api.openai.com/v1/models", requestHeaders := [],
    requestBodyJson := none, requestRawLen := 0,
    requestTimestampStart := none, responseStatus := 200,
    responseHeaders := [], responseText := some "{}", responseRawLen := 2,
    responseTimestampEnd := none }

/-- A matched POST transaction whose request body did not parse. -/
def sampleBadBodyFlow : Transaction :=
  { method := "POST", host := "api.openai.com",
    path := "/v1/chat/completions",
    prettyUrl := "https://api.openai.com/v1/chat/completions",
    requestHeaders := [], requestBodyJson := none, requestRawLen := 12,
    requestTimestampStart := none, responseStatus := 200,
    responseHeaders := [], responseText := some "{}", responseRawLen := 2,
    responseTimestampEnd := none }

/-- A matched POST transaction to the Anthropic API with a parsed body. -/
def sampleAnthropicFlow : Transaction :=
  { method := "POST", host := "api.anthropic.com", path := "/v1/messages",
    prettyUrl := "https://api.anthropic.com/v1/messages",
    requestHeaders := [("Content-Type", "application/json"),
                       ("X-Api-Key", "secret")],
    requestBodyJson := some (Json.obj [("model", Json.str "claude-x")]),
    requestRawLen := 21, requestTimestampStart := none,
    responseStatus := 200,
    responseHeaders := [("Content-Type", "application/json")],
    responseText := some "{}", responseRawLen := 2,
    responseTimestampEnd := none }

/-- A matched POST transaction with an event-stream response. -/
def sampleStreamFlow : Transaction :=
  { method := "POST", host := "api.openai.com",
    path := "/v1/chat/completions",
    prettyUrl := "https://api.openai.com/v1/chat/completions",
    requestHeaders := [], requestBodyJson := some (Json.obj []),
    requestRawLen := 2, requestTimestampStart := none,
    responseStatus := 200,
    responseHeaders := [("Content-Type", "text/event-stream")],
    responseText := some "event: message", responseRawLen := 14,
    responseTimestampEnd := none }

/-- A matched POST transaction with an event-stream content-type whose
response body could not be read (`get_text` raised). -/
def sampleUnreadableFlow : Transaction :=
  { method := "POST", host := "api.openai.com",
    path := "/v1/chat/completions",
    prettyUrl := "https://api.openai.com/v1/chat/completions",
    requestHeaders := [], requestBodyJson := some (Json.obj []),
    requestRawLen := 2, requestTimestampStart := none,
    responseStatus := 200,
    responseHeaders := [("Content-Type", "text/event-stream")],
    responseText := none, responseRawLen := 9,
    responseTimestampEnd := none }

/-! ## Helper lemmas -/

/-- The capture-pattern loop is the first match of the ordered list. -/
theorem scanCapture_eq_find (host path : String)
    (l : List (String × String × String × Option String)) :
    scanCapture host path l =
      (l.find? (fun r => strIn r.1 host && strIn r.2.1 path)).map
        (fun r => (r.2.2.1, r.2.2.2)) := by
  induction l with
  | nil => rfl
  | cons hd tl ih =>
    obtain ⟨hp, pp, prov, src⟩ := hd
    by_cases h : (strIn hp host && strIn pp path) = true
    · simp [scanCapture, List.find?_cons_of_pos, h]
    · rw [scanCapture, if_neg (by simpa using h), ih,
        List.find?_cons_of_neg _ (by simpa using h)]

/-- The catch-all loop is the first match of the catch-all list. -/
theorem scanCatchall_eq_find (host path : String)
    (l : List (String × String)) :
    scanCatchall host path l =
      (l.find? (fun r => strIn r.1 path)).map
        (fun r => (r.2, some (hostFirstLabel host))) := by
  induction l with
  | nil => rfl
  | cons hd tl ih =>
    obtain ⟨pp, prov⟩ := hd
    by_cases h : strIn pp path = true
    · simp [scanCatchall, List.find?_cons_of_pos, h]
    · rw [scanCatchall, if_neg (by simpa using h), ih,
        List.find?_cons_of_neg _ (by simpa using h)]

/-- C5: for every (host, path), `match_request` returns the first capture
rule whose host-substring is contained in host and whose path-substring
is contained in path (earlier rule wins); when none matches it scans the
catch-all list by path-substring only, deriving source as the host's
first dot-delimited label (or the whole host when it has no dot) —
i.e. it coincides with the spec-level matcher `matchRequestSpec`. -/
theorem match_request_follows_spec (host path : String) :
    match_request host path = matchRequestSpec host path := by
  unfold match_request matchRequestSpec
  rw [scanCapture_eq_find, scanCatchall_eq_find]
  cases CAPTURE_PATTERNS.find? (fun r => strIn r.1 host && strIn r.2.1 path) with
  | some r => simp
  | none =>
    cases CATCHALL_PATH_PATTERNS.find? (fun r => strIn r.1 path) with
    | some r => simp
    | none => simp

/-- C7: the format classifier is a pure function into exactly
{responses, chat-completions, anthropic-messages, unknown}, and the
backend-API segment check runs first: any path containing
`/backend-api/` is classified "responses" even when a later check would
also apply. -/
theorem detect_api_format_range_and_order (path : String) :
    (detect_api_format path = "responses" ∨
     detect_api_format path = "chat-completions" ∨
     detect_api_format path = "anthropic-messages" ∨
     detect_api_format path = "unknown") ∧
    (strIn "/backend-api/" path = true → detect_api_format path = "responses") := by
  constructor
  · unfold detect_api_format
    split_ifs <;> simp
  · intro h
    simp [detect_api_format, h]

/-- Witness for C7 at a path containing both the backend-API segment and
a later check's substring. -/
theorem detect_api_format_range_and_order_witness :
    strIn "/backend-api/" "/backend-api/v1/messages" = true ∧
    detect_api_format "/backend-api/v1/messages" = "responses" :=
  ⟨by decide,
   (detect_api_format_range_and_order "/backend-api/v1/messages").2 (by decide)⟩

/-- C1: every key the Redactor outputs is (case-insensitively) in the
direction's fixed allow-list; in particular no authorization, API-key or
cookie header ever appears, whatever the input casing. -/
theorem redactHeaders_only_allowlisted (d : Direction)
    (hs : List (String × String)) (k v : String)
    (hmem : (k, v) ∈ redactHeaders d hs) :
    pyLower k ∈ allowlist d ∧ pyLower k ≠ "authorization" ∧
    pyLower k ≠ "proxy-authorization" ∧ pyLower k ≠ "x-api-key" ∧
    pyLower k ≠ "api-key" ∧ pyLower k ≠ "cookie" ∧ pyLower k ≠ "set-cookie" := by
  have h := List.mem_filter.mp hmem
  have h3 : pyLower k ∈ allowlist d := by simpa using h.2
  refine ⟨h3, ?_, ?_, ?_, ?_, ?_, ?_⟩ <;>
    · intro he
      rw [he] at h3
      cases d <;> revert h3 <;> decide

/-- Witness for C1: a mixed-case content-type key passes while an
authorization header is dropped from the same input map. -/
theorem redactHeaders_only_allowlisted_witness :
    pyLower "Content-Type" ∈ allowlist Direction.request ∧
    pyLower "Content-Type" ≠ "authorization" ∧
    pyLower "Content-Type" ≠ "proxy-authorization" ∧
    pyLower "Content-Type" ≠ "x-api-key" ∧
    pyLower "Content-Type" ≠ "api-key" ∧
    pyLower "Content-Type" ≠ "cookie" ∧
    pyLower "Content-Type" ≠ "set-cookie" :=
  redactHeaders_only_allowlisted Direction.request
    [("Content-Type", "application/json"), ("Authorization", "Bearer k")]
    "Content-Type" "application/json" (by decide)

/-- C6: for a captured transaction whose response body text was read, the
record's responseIsStreaming field is true exactly when the content-type
contains "text/event-stream" or the body text starts with "event:". -/
theorem responseIsStreaming_iff (cfg : Config) (nowMs : Nat)
    (flow : Transaction) (provider : String) (source : Option String)
    (body : Json) (text : String)
    (hresp : flow.responseText = some text) :
    ((buildCapture cfg nowMs flow provider source body (readResponse flow).1
        (readResponse flow).2.1).responseIsStreaming = true) ↔
      (strIn "text/event-stream" (headerGet flow.responseHeaders
          "content-type") = true ∨
        strStartsWith text "event:" = true) := by
  have hfield : (buildCapture cfg nowMs flow provider source body
      (readResponse flow).1 (readResponse flow).2.1).responseIsStreaming =
      (readResponse flow).2.1 := rfl
  rw [hfield]
  rcases Bool.eq_false_or_eq_true (strIn "text/event-stream"
      (headerGet flow.responseHeaders "content-type")) with h1 | h1 <;>
    rcases Bool.eq_false_or_eq_true (strStartsWith text "event:") with h2 | h2 <;>
    simp [readResponse, hresp, h1, h2]

/-- Witness for C6 on a transaction with an event-stream content-type and
an "event:" body. -/
theorem responseIsStreaming_iff_witness :
    ((buildCapture ⟨"http://localhost:4041/api/ingest", ""⟩ 0 sampleStreamFlow
        "openai" none (Json.obj []) (readResponse sampleStreamFlow).1
        (readResponse sampleStreamFlow).2.1).responseIsStreaming = true) ↔
      (strIn "text/event-stream" (headerGet sampleStreamFlow.responseHeaders
          "content-type") = true ∨
        strStartsWith "event: message" "event:" = true) :=
  responseIsStreaming_iff ⟨"http://localhost:4041/api/ingest", ""⟩ 0
    sampleStreamFlow "openai" none (Json.obj []) "event: message" rfl

/-- C3: a non-POST transaction, or one matching no pattern, produces no
log line, no ingest attempt and no capture record, and the handler
returns normally. -/
theorem no_match_no_effects (cfg : Config) (nowMs : Nat)
    (flow : Transaction) (net : NetOutcome)
    (h : flow.method ≠ "POST" ∨ match_request flow.host flow.path = none) :
    response cfg nowMs flow net =
      Except.ok { logs := [], ingestAttempts := [], capture := none } := by
  rcases h with h | h
  · simp [response, h]
  · by_cases hp : flow.method = "POST"
    · simp [response, hp, h]
    · simp [response, hp]

/-- Witness for C3 on a concrete GET transaction. -/
theorem no_match_no_effects_witness :
    response ⟨"http://localhost:4041/api/ingest", ""⟩ 0 sampleGetFlow
      NetOutcome.delivered =
      Except.ok { logs := [], ingestAttempts := [], capture := none } :=
  no_match_no_effects ⟨"http://localhost:4041/api/ingest", ""⟩ 0 sampleGetFlow
    NetOutcome.delivered (Or.inl (by decide))

/-- C4: a matched POST transaction whose request body did not parse as
JSON is skipped with exactly one diagnostic log line: no capture record,
no ingest attempt, and a normal return. -/
theorem parse_failure_skips (cfg : Config) (nowMs : Nat) (flow : Transaction)
    (net : NetOutcome) (pr : String × Option String)
    (hpost : flow.method = "POST")
    (hmatch : match_request flow.host flow.path = some pr)
    (hbody : flow.requestBodyJson = none) :
    response cfg nowMs flow net =
      Except.ok { logs := [LogEvent.parseFailure], ingestAttempts := [],
                  capture := none } := by
  obtain ⟨prov, src⟩ := pr
  simp [response, hpost, hmatch, hbody]

/-- Witness for C4 on a concrete matched POST transaction with an
unparseable body. -/
theorem parse_failure_skips_witness :
    response ⟨"http://localhost:4041/api/ingest", ""⟩ 0 sampleBadBodyFlow
      NetOutcome.delivered =
      Except.ok { logs := [LogEvent.parseFailure], ingestAttempts := [],
                  capture := none } :=
  parse_failure_skips ⟨"http://localhost:4041/api/ingest", ""⟩ 0
    sampleBadBodyFlow NetOutcome.delivered ("openai", none) rfl (by decide) rfl

/-- C2: for a matched, parsed POST transaction the handler returns
normally for every network outcome; the capture record is fully built
and the forward attempted even when delivery fails, and every forward
failure is logged. -/
theorem forward_failure_swallowed (cfg : Config) (nowMs : Nat)
    (flow : Transaction) (net : NetOutcome) (provider : String)
    (source : Option String) (body : Json)
    (hpost : flow.method = "POST")
    (hmatch : match_request flow.host flow.path = some (provider, source))
    (hbody : flow.requestBodyJson = some body) :
    ∃ r : HandlerResult,
      response cfg nowMs flow net = Except.ok r ∧
      r.capture = some (buildCapture cfg nowMs flow provider source body
        (readResponse flow).1 (readResponse flow).2.1) ∧
      r.ingestAttempts = [(cfg.ingestUrl, encodeCapture (buildCapture cfg
        nowMs flow provider source body (readResponse flow).1
        (readResponse flow).2.1))] ∧
      (∀ e, forwardStep net = Except.error e →
        LogEvent.ingestFailed e ∈ r.logs) := by
  simp only [response, hpost, hmatch, hbody, ne_eq, not_true_eq_false,
    if_false]
  cases hnet : forwardStep net with
  | error e =>
    refine ⟨_, rfl, rfl, rfl, ?_⟩
    intro e2 he2
    injection he2 with h
    subst h
    simp
  | ok u =>
    cases hm : pyGetModel body with
    | error e =>
      refine ⟨_, rfl, rfl, rfl, ?_⟩
      intro e2 he2
      exact Except.noConfusion he2
    | ok model =>
      refine ⟨_, rfl, rfl, rfl, ?_⟩
      intro e2 he2
      exact Except.noConfusion he2

/-- Witness for C2: the Anthropic sample transaction with an unreachable
ingestion endpoint. -/
theorem forward_failure_swallowed_witness :
    ∃ r : HandlerResult,
      response ⟨"http://localhost:4041/api/ingest", ""⟩ 0 sampleAnthropicFlow
        (NetOutcome.connectionFailed "Connection refused") = Except.ok r ∧
      r.capture = some (buildCapture ⟨"http://localhost:4041/api/ingest", ""⟩
        0 sampleAnthropicFlow "anthropic" none
        (Json.obj [("model", Json.str "claude-x")])
        (readResponse sampleAnthropicFlow).1
        (readResponse sampleAnthropicFlow).2.1) ∧
      r.ingestAttempts = [("http://localhost:4041/api/ingest", encodeCapture
        (buildCapture ⟨"http://localhost:4041/api/ingest", ""⟩ 0
          sampleAnthropicFlow "anthropic" none
          (Json.obj [("model", Json.str "claude-x")])
          (readResponse sampleAnthropicFlow).1
          (readResponse sampleAnthropicFlow).2.1))] ∧
      (∀ e, forwardStep (NetOutcome.connectionFailed "Connection refused") =
          Except.error e →
        LogEvent.ingestFailed e ∈ r.logs) :=
  forward_failure_swallowed ⟨"http://localhost:4041/api/ingest", ""⟩ 0
    sampleAnthropicFlow (NetOutcome.connectionFailed "Connection refused")
    "anthropic" none (Json.obj [("model", Json.str "claude-x")]) rfl
    (by decide) rfl

/-- Decoding inverts encoding on header field lists. -/
theorem decodeHeaderFields_encode (hs : List (String × String)) :
    decodeHeaderFields (hs.map (fun kv => (kv.1, Json.str kv.2))) = some hs := by
  induction hs with
  | nil => rfl
  | cons hd tl ih =>
    obtain ⟨k, v⟩ := hd
    simp [decodeHeaderFields, ih]

/-- Decoding inverts encoding on header maps. -/
theorem decodeHeaders_encode (hs : List (String × String)) :
    decodeHeaders (encodeHeaders hs) = some hs := by
  simp [decodeHeaders, encodeHeaders, decodeHeaderFields_encode]

/-- Decoding inverts encoding on nullable strings. -/
theorem jOptStr_encode (o : Option String) :
    jOptStr (encodeOptStr o) = some o := by
  cases o <;> rfl

/-- Decoding inverts encoding on the identification fields. -/
theorem decodeMeta_encode (r : CaptureRecord) :
    decodeMeta (encodeCapture r) =
      some ⟨r.timestamp, r.method, r.path, r.source, r.provider,
            r.apiFormat, r.targetUrl⟩ := by
  cases hs : r.source <;>
    simp [decodeMeta, encodeCapture, jGet, jGetF, jStr, jOptStr, hs,
      encodeOptStr]

/-- Decoding inverts encoding on the request-side fields. -/
theorem decodeReq_encode (r : CaptureRecord) :
    decodeReq (encodeCapture r) =
      some ⟨r.requestHeaders, r.requestBody, r.requestBytes,
            r.responseStatus, r.responseHeaders⟩ := by
  simp [decodeReq, encodeCapture, jGet, jGetF, jNat, jInt,
    decodeHeaders_encode]

/-- Decoding inverts encoding on the response-side fields. -/
theorem decodeResp_encode (r : CaptureRecord) :
    decodeResp (encodeCapture r) =
      some ⟨r.responseBody, r.responseIsStreaming, r.responseBytes,
            r.sessionId, r.timings⟩ := by
  cases hs : r.sessionId <;>
    simp [decodeResp, encodeCapture, jGet, jGetF, jStr, jBool, jNat, jInt,
      jOptStr, hs, encodeOptStr, decodeTimings, encodeTimings]

/-- C8: serializing a capture record to its JSON value and parsing it
back yields a field-for-field identical record; byte counts and integer
millisecond timings survive exactly. -/
theorem encode_decode_roundtrip (r : CaptureRecord) :
    decodeCapture (encodeCapture r) = some r := by
  simp [decodeCapture, decodeMeta_encode, decodeReq_encode,
    decodeResp_encode]

/-- C9: the record's sessionId is null exactly when the session id
resolved from the environment at startup (stripped of surrounding
whitespace) is empty, and otherwise is that configured string copied
verbatim. -/
theorem sessionId_null_iff_env_blank (env : Option String)
    (ingestUrl : String) (nowMs : Nat) (flow : Transaction)
    (provider : String) (source : Option String) (body : Json)
    (respBody : String) (streaming : Bool) :
    ((buildCapture ⟨ingestUrl, resolveSessionId env⟩ nowMs flow provider
        source body respBody streaming).sessionId = none ↔
      resolveSessionId env = "") ∧
    (resolveSessionId env ≠ "" →
      (buildCapture ⟨ingestUrl, resolveSessionId env⟩ nowMs flow provider
        source body respBody streaming).sessionId =
        some (resolveSessionId env)) := by
  have hfield : (buildCapture ⟨ingestUrl, resolveSessionId env⟩ nowMs flow
      provider source body respBody streaming).sessionId =
      pyOrNone (resolveSessionId env) := rfl
  constructor
  · rw [hfield]
    unfold pyOrNone
    split_ifs with h <;> simp [h]
  · intro h
    rw [hfield]
    simp [pyOrNone, h]

/-- Witness for C9 on a whitespace-padded environment value. -/
theorem sessionId_null_iff_env_blank_witness :
    (buildCapture ⟨"http://localhost:4041/api/ingest",
        resolveSessionId (some " session-1 ")⟩ 0 sampleAnthropicFlow
      "anthropic" none Json.null "" false).sessionId =
      some (resolveSessionId (some " session-1 ")) :=
  (sessionId_null_iff_env_blank (some " session-1 ")
    "http://localhost:4041/api/ingest" 0 sampleAnthropicFlow "anthropic"
    none Json.null "" false).2 (by decide)

/-- C10: the record's timestamp always carries the literal sub-second
part ".000": it is a whole-second value, unchanged by the millisecond
remainder of the capture time. -/
theorem timestamp_subsecond_always_zero (cfg : Config) (nowMs : Nat)
    (flow : Transaction) (provider : String) (source : Option String)
    (body : Json) (respBody : String) (streaming : Bool) :
    (∃ p, (buildCapture cfg nowMs flow provider source body respBody
        streaming).timestamp = p ++ ".000Z") ∧
    (buildCapture cfg nowMs flow provider source body respBody
        streaming).timestamp = captureTimestamp (1000 * (nowMs / 1000)) := by
  constructor
  · exact ⟨_, rfl⟩
  · have hq : 1000 * (nowMs / 1000) / 1000 = nowMs / 1000 := by omega
    show captureTimestamp nowMs = captureTimestamp (1000 * (nowMs / 1000))
    unfold captureTimestamp
    rw [hq]

/-- Counterexample to C6 as stated: a captured transaction whose
response content-type contains the event-stream marker but whose body
could not be read is still captured (with an empty body), yet its
responseIsStreaming field is false, because the content-type check at
line 118 is skipped when `get_text` raises at line 115. -/
theorem responseIsStreaming_marker_counterexample :
    strIn "text/event-stream"
      (headerGet sampleUnreadableFlow.responseHeaders "content-type") = true ∧
    response ⟨"http://localhost:4041/api/ingest", ""⟩ 0 sampleUnreadableFlow
        NetOutcome.delivered =
      Except.ok
        { logs := [LogEvent.readFailure,
                   LogEvent.captured none "openai" (Json.str "unknown")],
          ingestAttempts := [("http://localhost:4041/api/ingest",
            encodeCapture (buildCapture
              ⟨"http://localhost:4041/api/ingest", ""⟩ 0 sampleUnreadableFlow
              "openai" none (Json.obj []) "" false))],
          capture := some (buildCapture
            ⟨"http://localhost:4041/api/ingest", ""⟩ 0 sampleUnreadableFlow
            "openai" none (Json.obj []) "" false) } ∧
    (buildCapture ⟨"http://localhost:4041/api/ingest", ""⟩ 0
        sampleUnreadableFlow "openai" none (Json.obj [])
        "" false).responseIsStreaming = false :=
  ⟨by decide, rfl, rfl⟩
